/-
Verification of the Stripe Payment Failure Monitor (src/index.js).

The service is a single Express module: it verifies webhook signatures via
the Stripe SDK, normalizes one of three payment-failure event shapes into a
canonical record, optionally resolves customer details, renders and submits
a plaintext email alert through the Gmail API, and keeps a bounded
newest-first in-memory activity log.

This file shallowly embeds that module.  External collaborators (signature
verification, the customer-retrieval call, the mail-submission call) are
modelled as oracle parameters of `Except`/`Bool` result type, exactly at the
boundary where src/index.js calls into the vendor SDKs; the base64url
encoding of the outgoing message is part of that opaque mail submission.
JavaScript `a || b` on possibly-undefined values falls through on every
falsy value (undefined, the empty string, the number 0), which the
`jsOrStr` / `jsOrInt` helpers reproduce; `Option` models
present-vs-undefined.
-/
import Mathlib

set_option autoImplicit false
set_option maxRecDepth 10000

namespace StripeMonitor

/-! ## JavaScript value helpers -/

/-- Truthiness of a possibly-undefined JS string: `undefined` and `""` are
falsy, every other string is truthy. -/
def truthyStr : Option String → Bool
  | none => false
  | some s => s ≠ ""

/-- Truthiness of a possibly-undefined JS integer: `undefined` and `0` are
falsy. -/
def truthyInt : Option Int → Bool
  | none => false
  | some n => n ≠ 0

/-- JS `a || b` for possibly-undefined strings. -/
def jsOrStr (a b : Option String) : Option String :=
  if truthyStr a then a else b

/-- JS `a || b` for possibly-undefined integers. -/
def jsOrInt (a b : Option Int) : Option Int :=
  if truthyInt a then a else b

/-- JS `a || d` where `d` is a truthy string literal default, as in
`paymentData.failure_code || 'Not provided'`. -/
def jsOrStrD (a : Option String) (d : String) : String :=
  match a with
  | some s => if s = "" then d else s
  | none => d

/-- Template-literal interpolation of a possibly-undefined string:
`undefined` prints as "undefined". -/
def jsStr : Option String → String
  | none => "undefined"
  | some s => s

/-! ## Activity log (src/index.js lines 35-43)

`log` unshifts a `{timestamp, level, message}` entry onto `recentLogs` and
pops the last entry when the length exceeds 100. -/

structure LogEntry where
  timestamp : String
  level : String
  message : String
deriving DecidableEq, Repr

/-- `log(message, level)`: prepend the new entry, then drop the oldest when
the buffer has grown beyond 100 entries. -/
def logRecord (ts msg lvl : String) (logs : List LogEntry) : List LogEntry :=
  let l := ⟨ts, lvl, msg⟩ :: logs
  if l.length > 100 then l.dropLast else l

/-- Recording a batch of messages in order (each call mirrors
`log(message)` with level "info"); used to state the 101-record property. -/
def recordMsgs (ts : String) (msgs : List String) (logs : List LogEntry) : List LogEntry :=
  msgs.foldl (fun l m => logRecord ts m "info" l) logs

/-! ## Event payloads and the normalizer (src/index.js lines 177-193) -/

/-- `last_payment_error` sub-object: both fields may be absent. -/
structure LastPaymentError where
  code : Option String
  message : Option String
deriving DecidableEq, Repr

/-- `payment_method` sub-object. -/
structure PaymentMethodObj where
  type : Option String
deriving DecidableEq, Repr

/-- `source` sub-object. -/
structure SourceObj where
  type : Option String
deriving DecidableEq, Repr

/-- The embedded `event.data.object`, covering the union of the fields the
normalizer probes across the three event shapes. -/
structure EventObject where
  id : Option String
  payment_intent : Option String
  amount : Option Int
  amount_due : Option Int
  currency : Option String
  failure_code : Option String
  failure_message : Option String
  last_payment_error : Option LastPaymentError
  payment_method_types : Option (List String)
  payment_method : Option PaymentMethodObj
  source : Option SourceObj
  created : Option Int
  customer : Option String
deriving DecidableEq, Repr

/-- An event object with every field absent. -/
def EventObject.empty : EventObject :=
  ⟨none, none, none, none, none, none, none, none, none, none, none, none, none⟩

/-- A verified Stripe event: its declared type and embedded object. -/
structure Event where
  type : String
  obj : EventObject
deriving DecidableEq, Repr

/-- The canonical payment-failure record (`paymentData`). -/
structure PaymentData where
  payment_intent_id : Option String
  amount : Option Int
  currency : Option String
  failure_code : Option String
  failure_message : Option String
  payment_method_type : Option String
  created : Option Int
  customer_name : String
  customer_email : String
deriving DecidableEq, Repr

/-- The normalizer: the `paymentData` construction of src/index.js lines
181-193, with JS `||` fall-through on falsy values and `?.` optional
chaining. -/
def normalize (e : EventObject) : PaymentData where
  payment_intent_id := jsOrStr e.id e.payment_intent
  amount := jsOrInt e.amount e.amount_due
  currency := e.currency
  failure_code := jsOrStr e.failure_code (e.last_payment_error.bind LastPaymentError.code)
  failure_message := jsOrStr e.failure_message (e.last_payment_error.bind LastPaymentError.message)
  payment_method_type :=
    jsOrStr (jsOrStr (e.payment_method_types.bind List.head?)
        (e.payment_method.bind PaymentMethodObj.type))
      (e.source.bind SourceObj.type)
  created := e.created
  customer_name := ""
  customer_email := ""

/-- Modelled from the spec: the field-resolution policy as claim C4 states
it, first-match-wins on PRESENCE ("the object's own id, else its
payment_intent reference", …) — a field is used whenever it is defined,
falling back only when it is absent.  Compared against `normalize`, which
is translated from the source. -/
def normalizePresence (e : EventObject) : PaymentData where
  payment_intent_id := e.id.orElse fun _ => e.payment_intent
  amount := e.amount.orElse fun _ => e.amount_due
  currency := e.currency
  failure_code := e.failure_code.orElse fun _ => e.last_payment_error.bind LastPaymentError.code
  failure_message := e.failure_message.orElse fun _ => e.last_payment_error.bind LastPaymentError.message
  payment_method_type :=
    (e.payment_method_types.bind List.head?).orElse fun _ =>
      ((e.payment_method.bind PaymentMethodObj.type).orElse fun _ => e.source.bind SourceObj.type)
  created := e.created
  customer_name := ""
  customer_email := ""

/-! ## Email rendering and sending (src/index.js lines 46-97) -/

/-- Two-digit zero padding of the cents remainder. -/
def pad2 (n : Nat) : String :=
  if n < 10 then "0" ++ toString n else toString n

/-- `(n / 100).toFixed(2)` for an integer number of minor units `n`: the
exact two-decimal rendering, with a leading minus sign for negative
amounts. -/
def fixed2OfCents (n : Int) : String :=
  (if n < 0 then "-" else "") ++ toString (n.natAbs / 100) ++ "." ++ pad2 (n.natAbs % 100)

/-- `(paymentData.amount / 100).toFixed(2)`: an undefined amount divides to
NaN and renders as "NaN". -/
def amountStr : Option Int → String
  | none => "NaN"
  | some n => fixed2OfCents n

/-- `s.toUpperCase()`, character by character (Stripe currency codes are
ASCII). -/
def jsToUpper (s : String) : String :=
  ⟨s.data.map Char.toUpper⟩

/-- `paymentData.currency?.toUpperCase() || 'USD'`. -/
def currencyStr (c : Option String) : String :=
  match c with
  | none => "USD"
  | some s => if s = "" then "USD" else jsToUpper s

/-- The trimmed template-literal email body of `sendEmailAlert`;
`tsLoc` stands for `new Date(paymentData.created * 1000).toLocaleString()`,
whose locale-dependent rendering is opaque. -/
def emailBody (p : PaymentData) (tsLoc : String) : String :=
  "A payment failure has been detected in your Stripe account:\n\n" ++
  "Customer: " ++ (if p.customer_name = "" then "Unknown" else p.customer_name) ++ "\n" ++
  "Customer Email: " ++ (if p.customer_email = "" then "Not provided" else p.customer_email) ++ "\n" ++
  "Amount: $" ++ amountStr p.amount ++ " " ++ currencyStr p.currency ++ "\n" ++
  "Payment Method: " ++ jsOrStrD p.payment_method_type "Unknown" ++ "\n" ++
  "Failure Code: " ++ jsOrStrD p.failure_code "Not provided" ++ "\n" ++
  "Failure Message: " ++ jsOrStrD p.failure_message "No details provided" ++ "\n" ++
  "Payment Intent ID: " ++ jsStr p.payment_intent_id ++ "\n" ++
  "Timestamp: " ++ tsLoc ++ "\n\n" ++
  "Please review this failed payment in your Stripe dashboard:\n" ++
  "https://dashboard.stripe.com/payments/" ++ jsStr p.payment_intent_id ++ "\n\n" ++
  "---\nAutomated alert from Stripe Payment Monitor"

/-- The subject line. -/
def emailSubject (p : PaymentData) : String :=
  "🚨 Payment Failed Alert - " ++
    (if p.customer_name = "" then "Unknown Customer" else p.customer_name)

/-- The joined RFC-822-style message handed to the mail transport (the
base64url encoding that follows is part of the opaque submission call). -/
def alertMessage (alertEmail : String) (p : PaymentData) (tsLoc : String) : String :=
  String.intercalate "\n"
    ["Content-Type: text/plain; charset=\"UTF-8\"",
     "MIME-Version: 1.0",
     "To: " ++ alertEmail,
     "Subject: " ++ emailSubject p,
     "",
     emailBody p tsLoc]

/-- Result of one `sendEmailAlert` call: the returned boolean, the updated
activity log, and the list of messages submitted to the mail API during the
call. -/
structure SendResult where
  ok : Bool
  logs : List LogEntry
  attempts : List String
deriving Repr

/-- `sendEmailAlert(paymentData)`: render the message, submit it once via
the mail oracle `gmailSend`, log the outcome, and return `true` on success
and `false` on failure — the `try/catch` converts the mail API error into a
logged `false` return. -/
def sendEmailAlert (gmailSend : String → Except String Unit) (alertEmail : String)
    (p : PaymentData) (ts tsLoc : String) (logs : List LogEntry) : SendResult :=
  let msg := alertMessage alertEmail p tsLoc
  match gmailSend msg with
  | .ok _ =>
      ⟨true,
       logRecord ts ("Email alert sent successfully for payment " ++ jsStr p.payment_intent_id)
         "info" logs,
       [msg]⟩
  | .error e =>
      ⟨false, logRecord ts ("Failed to send email alert: " ++ e) "error" logs, [msg]⟩

/-! ## HTTP surface -/

/-- `GET /health` (src/index.js lines 119-126): connectivity flags from JS
truthiness of the configured credentials. -/
structure HealthConfig where
  STRIPE_SECRET_KEY : Option String
  GMAIL_CLIENT_ID : Option String
  GMAIL_CLIENT_SECRET : Option String
  GMAIL_REFRESH_TOKEN : Option String
deriving DecidableEq, Repr

structure HealthResp where
  status : String
  stripe_connected : Bool
  gmail_connected : Bool
deriving DecidableEq, Repr

/-- The `/health` handler: `stripe_connected: !!STRIPE_SECRET_KEY`,
`gmail_connected: !!GMAIL_CLIENT_ID && !!GMAIL_REFRESH_TOKEN`. -/
def handleHealth (cfg : HealthConfig) : HealthResp where
  status := "healthy"
  stripe_connected := truthyStr cfg.STRIPE_SECRET_KEY
  gmail_connected := truthyStr cfg.GMAIL_CLIENT_ID && truthyStr cfg.GMAIL_REFRESH_TOKEN

/-- `GET /logs` response shape. -/
structure LogsResp where
  logs : List LogEntry
  total : Nat
deriving DecidableEq, Repr

/-- The `/logs` handler (src/index.js lines 128-133):
`recentLogs.slice(0, 50)` plus `recentLogs.length`. -/
def handleLogs (recentLogs : List LogEntry) : LogsResp where
  logs := recentLogs.take 50
  total := recentLogs.length

/-- A webhook response body: the 400 branch sends plain text, the 200
branch sends `{received, type}` JSON. -/
inductive RespBody where
  | text (msg : String)
  | json (received : Bool) (type : String)
deriving DecidableEq, Repr

structure Resp where
  status : Nat
  body : RespBody
deriving DecidableEq, Repr

/-- A Stripe customer as the lookup call returns it. -/
structure Customer where
  name : Option String
  email : Option String
deriving DecidableEq, Repr

/-- The three recognized payment-failure event types. -/
def isFailureType (t : String) : Bool :=
  t = "payment_intent.payment_failed" || t = "invoice.payment_failed" || t = "charge.failed"

/-- Overall outcome of one `/webhook` request: the HTTP response, the final
activity log, and the `paymentData` arguments of the `sendEmailAlert` calls
made while handling it. -/
structure WebhookOutcome where
  resp : Resp
  logs : List LogEntry
  emailCalls : List PaymentData
deriving Repr

/-- The body of the `try` block at src/index.js lines 177-219: normalize,
optionally look the customer up (`if (eventData.customer)` — skipped on an
absent or empty reference; a failed lookup is logged and the blank
name/email kept), log the processing line, send the alert, log the send
outcome.  Every step is total, so the enclosing `catch` is unreachable in
the model.  Returns the final log and the `sendEmailAlert` arguments. -/
def processFailure (lookup : String → Except String Customer)
    (gmailSend : String → Except String Unit) (alertEmail : String)
    (ev : Event) (ts tsLoc : String) (logs : List LogEntry) :
    List LogEntry × List PaymentData :=
  let p0 := normalize ev.obj
  let step :=
    match ev.obj.customer with
    | some cid =>
        if cid = "" then (p0, logs)
        else
          match lookup cid with
          | .ok c =>
              ({ p0 with customer_name := c.name.getD "", customer_email := c.email.getD "" },
               logs)
          | .error msg =>
              (p0, logRecord ts ("Failed to retrieve customer info: " ++ msg) "error" logs)
    | none => (p0, logs)
  let p := step.1
  let logs2 := logRecord ts
    ("Processing payment failure: " ++ jsStr p.payment_intent_id ++ ", Amount: $" ++
      amountStr p.amount) "info" step.2
  let sr := sendEmailAlert gmailSend alertEmail p ts tsLoc logs2
  let logs4 :=
    if sr.ok then
      logRecord ts ("Successfully processed payment failure event: " ++ ev.type) "info" sr.logs
    else
      logRecord ts ("Failed to send alert for payment failure: " ++ jsStr p.payment_intent_id)
        "error" sr.logs
  (logs4, [p])

/-- The `/webhook` handler (src/index.js lines 160-223).  `verify` is the
outcome of `stripeClient.webhooks.constructEvent`: `.error msg` models the
verifier throwing with message `msg`, `.ok ev` a verified event.  On
verification failure: log at level error and reply 400 with the verifier's
message.  On success: log the event type, process the three failure kinds,
and always reply 200 `{received: true, type}`. -/
def handleWebhook (verify : Except String Event)
    (lookup : String → Except String Customer)
    (gmailSend : String → Except String Unit) (alertEmail : String)
    (ts tsLoc : String) (logs0 : List LogEntry) : WebhookOutcome :=
  match verify with
  | .error msg =>
      { resp := ⟨400, .text ("Webhook Error: " ++ msg)⟩
        logs := logRecord ts ("Webhook signature verification failed: " ++ msg) "error" logs0
        emailCalls := [] }
  | .ok ev =>
      let logs1 := logRecord ts ("Received Stripe webhook event: " ++ ev.type) "info" logs0
      if isFailureType ev.type then
        let pr := processFailure lookup gmailSend alertEmail ev ts tsLoc logs1
        { resp := ⟨200, .json true ev.type⟩, logs := pr.1, emailCalls := pr.2 }
      else
        { resp := ⟨200, .json true ev.type⟩, logs := logs1, emailCalls := [] }

/-! ## Helper lemmas -/

/-- The entry just recorded is always at the front: trimming only ever
drops the last element. -/
theorem logRecord_head (ts msg lvl : String) (logs : List LogEntry) :
    (logRecord ts msg lvl logs).head? = some ⟨ts, lvl, msg⟩ := by
  simp only [logRecord]
  split
  · rename_i h
    match logs with
    | [] => simp at h
    | x :: xs => simp [List.dropLast]
  · rfl

/-- `logRecord` puts the new entry at the front. -/
theorem logRecord_getElem_zero (ts msg lvl : String) (logs : List LogEntry) :
    (logRecord ts msg lvl logs)[0]? = some ⟨ts, lvl, msg⟩ := by
  rw [← List.head?_eq_getElem?]
  exact logRecord_head ts msg lvl logs

/-- Recording shifts old entries one position down, as long as we stay
within the first 100 positions (trimming only drops the last element of an
over-full buffer). -/
theorem logRecord_getElem_succ (ts msg lvl : String) (logs : List LogEntry) (i : Nat)
    (h : i + 1 < 100) :
    (logRecord ts msg lvl logs)[i + 1]? = logs[i]? := by
  simp only [logRecord]
  split
  · rename_i hlen
    simp only [List.length_cons, gt_iff_lt] at hlen
    rw [List.dropLast_eq_take, List.getElem?_take_of_lt, List.getElem?_cons_succ]
    simp only [List.length_cons]
    omega
  · simp

/-- Both branches of `sendEmailAlert` log exactly one entry, timestamped
`ts`, on top of the incoming log. -/
theorem sendEmailAlert_logs_shape (gmailSend : String → Except String Unit)
    (alertEmail : String) (p : PaymentData) (ts tsLoc : String) (logs : List LogEntry) :
    ∃ m lvl, (sendEmailAlert gmailSend alertEmail p ts tsLoc logs).logs =
      logRecord ts m lvl logs := by
  cases h : gmailSend (alertMessage alertEmail p tsLoc) with
  | ok _ =>
      exact ⟨"Email alert sent successfully for payment " ++ jsStr p.payment_intent_id, "info",
        by simp [sendEmailAlert, h]⟩
  | error e =>
      exact ⟨"Failed to send email alert: " ++ e, "error", by simp [sendEmailAlert, h]⟩

/-! ## Claims -/

/-- C1: for every webhook request whose signature verification succeeds and
whose event type is one of the three recognized failure kinds, the
`/webhook` handler responds HTTP 200 with body `{received: true, type}`,
for every behavior of the customer lookup and the mail send — no internal
error reaches the response. -/
theorem C1_webhook_acks_recognized_failures (ev : Event)
    (lookup : String → Except String Customer) (gmailSend : String → Except String Unit)
    (alertEmail ts tsLoc : String) (logs0 : List LogEntry)
    (h : ev.type = "payment_intent.payment_failed" ∨ ev.type = "invoice.payment_failed" ∨
      ev.type = "charge.failed") :
    (handleWebhook (.ok ev) lookup gmailSend alertEmail ts tsLoc logs0).resp =
      ⟨200, .json true ev.type⟩ := by
  have hb : isFailureType ev.type = true := by
    rcases h with h | h | h <;> simp [isFailureType, h]
  simp [handleWebhook, hb]

/-- Witness for C1 at a concrete verified `charge.failed` event whose mail
send fails. -/
theorem C1_witness :
    ("charge.failed" = "payment_intent.payment_failed" ∨
      "charge.failed" = "invoice.payment_failed" ∨ "charge.failed" = "charge.failed") ∧
    (handleWebhook (.ok ⟨"charge.failed", EventObject.empty⟩)
        (fun _ => .error "no customer") (fun _ => .error "gmail down") "a@b.c" "ts" "T"
        []).resp = ⟨200, .json true "charge.failed"⟩ :=
  ⟨by decide,
   C1_webhook_acks_recognized_failures ⟨"charge.failed", EventObject.empty⟩
     (fun _ => .error "no customer") (fun _ => .error "gmail down") "a@b.c" "ts" "T" []
     (by decide)⟩

/-- C2: when signature verification throws, the handler replies HTTP 400
carrying the verifier's message, records the failure at level error, and
never calls `sendEmailAlert`. -/
theorem C2_webhook_rejects_bad_signature (msg : String)
    (lookup : String → Except String Customer) (gmailSend : String → Except String Unit)
    (alertEmail ts tsLoc : String) (logs0 : List LogEntry) :
    (handleWebhook (.error msg) lookup gmailSend alertEmail ts tsLoc logs0).resp =
      ⟨400, .text ("Webhook Error: " ++ msg)⟩ ∧
    (handleWebhook (.error msg) lookup gmailSend alertEmail ts tsLoc logs0).logs.head? =
      some ⟨ts, "error", "Webhook signature verification failed: " ++ msg⟩ ∧
    (handleWebhook (.error msg) lookup gmailSend alertEmail ts tsLoc logs0).emailCalls = [] := by
  refine ⟨rfl, ?_, rfl⟩
  exact logRecord_head ts ("Webhook signature verification failed: " ++ msg) "error" logs0

/-- C8: `/logs` returns the first 50 entries of the newest-first buffer —
a subsequence of the most recent entries, never more than 50 — together
with the full length as `total`. -/
theorem C8_logs_endpoint (recentLogs : List LogEntry) :
    (handleLogs recentLogs).logs = recentLogs.take 50 ∧
    (handleLogs recentLogs).total = recentLogs.length ∧
    (handleLogs recentLogs).logs.length ≤ 50 ∧
    (handleLogs recentLogs).logs <+: recentLogs := by
  refine ⟨rfl, rfl, ?_, ?_⟩
  · simp [handleLogs]
  · exact List.take_prefix 50 recentLogs

/-- The configuration exhibiting C10's failure: `GMAIL_CLIENT_ID` is set
(to the empty string) and `GMAIL_REFRESH_TOKEN` is set, yet
`gmail_connected` is false, because `!!` tests truthiness, not presence. -/
def healthCfgEmptyId : HealthConfig :=
  ⟨some "sk_live_1", some "", none, some "refresh_tok"⟩

/-- C10 counterexample: with `GMAIL_CLIENT_ID` and `GMAIL_REFRESH_TOKEN`
both set and `GMAIL_CLIENT_SECRET` unset, the claim demands
`gmail_connected = true`, but the handler returns `false` when
`GMAIL_CLIENT_ID` is set to the empty string. -/
theorem C10_counterexample :
    healthCfgEmptyId.GMAIL_CLIENT_ID ≠ none ∧
    healthCfgEmptyId.GMAIL_REFRESH_TOKEN ≠ none ∧
    healthCfgEmptyId.GMAIL_CLIENT_SECRET = none ∧
    (handleHealth healthCfgEmptyId).gmail_connected = false := by
  refine ⟨?_, ?_, rfl, rfl⟩ <;> simp [healthCfgEmptyId]

/-- C10 (amended): `gmail_connected` is exactly the conjunction of the
truthiness (set and non-empty) of `GMAIL_CLIENT_ID` and
`GMAIL_REFRESH_TOKEN`; `GMAIL_CLIENT_SECRET` never influences the health
response; and `stripe_connected` is exactly the truthiness of
`STRIPE_SECRET_KEY`. -/
theorem C10_health_flags (cfg : HealthConfig) :
    (handleHealth cfg).gmail_connected =
      (truthyStr cfg.GMAIL_CLIENT_ID && truthyStr cfg.GMAIL_REFRESH_TOKEN) ∧
    (handleHealth cfg).stripe_connected = truthyStr cfg.STRIPE_SECRET_KEY ∧
    (∀ s, handleHealth { cfg with GMAIL_CLIENT_SECRET := s } = handleHealth cfg) := by
  exact ⟨rfl, rfl, fun _ => rfl⟩

/-- C3: the activity log never exceeds 100 entries — every `log` call from
a state within capacity stays within capacity — and after 101 records on an
empty log the first-recorded message ("0") is gone while the 101st
("100") sits at the front (index 0). -/
theorem C3_log_capacity :
    (∀ ts msg lvl (logs : List LogEntry), logs.length ≤ 100 →
      (logRecord ts msg lvl logs).length ≤ 100) ∧
    (recordMsgs "t" ((List.range 101).map toString) []).length = 100 ∧
    (recordMsgs "t" ((List.range 101).map toString) []).head? =
      some ⟨"t", "info", "100"⟩ ∧
    (∀ e ∈ recordMsgs "t" ((List.range 101).map toString) [], e.message ≠ "0") := by
  refine ⟨?_, by decide, by decide, by decide⟩
  intro ts msg lvl logs hlen
  simp only [logRecord]
  split
  · rename_i h
    simp only [List.length_cons] at h
    simp only [List.length_dropLast, List.length_cons]
    omega
  · rename_i h
    simp only [List.length_cons, gt_iff_lt, not_lt] at h
    simpa using h

/-- Witness for C3's capacity invariant at a concrete in-capacity state. -/
theorem C3_witness :
    ([(⟨"t0", "info", "start"⟩ : LogEntry)].length ≤ 100) ∧
    (logRecord "t1" "next" "info" [⟨"t0", "info", "start"⟩]).length ≤ 100 :=
  ⟨by decide, C3_log_capacity.1 "t1" "next" "info" [⟨"t0", "info", "start"⟩] (by decide)⟩

/-- The event object exhibiting C4's failure: `amount` is present but `0`,
so JS `||` falls through to `amount_due`. -/
def eventAmountZero : EventObject :=
  { EventObject.empty with amount := some 0, amount_due := some 500 }

/-- C4 counterexample: the claim's presence-based first-match policy
(`normalizePresence`, modelled from the claim's words) disagrees with the
code at an object carrying `amount = 0` and `amount_due = 500` — the claim
demands the direct `amount` field (0), the code resolves 500. -/
theorem C4_counterexample :
    eventAmountZero.amount = some 0 ∧
    (normalize eventAmountZero).amount = some 500 ∧
    normalize eventAmountZero ≠ normalizePresence eventAmountZero := by
  refine ⟨rfl, rfl, ?_⟩
  decide

/-- C4 (amended): field resolution is first-TRUTHY-match-wins, JS `||`
semantics: a candidate field is taken only when it is present and truthy
(non-empty string, nonzero number); a present but falsy field (the empty
string, the number 0) falls through to the next candidate exactly as an
absent one does. -/
theorem C4_first_truthy_match (e : EventObject) :
    (truthyStr e.id = true → (normalize e).payment_intent_id = e.id) ∧
    (truthyStr e.id = false → (normalize e).payment_intent_id = e.payment_intent) ∧
    (truthyInt e.amount = true → (normalize e).amount = e.amount) ∧
    (truthyInt e.amount = false → (normalize e).amount = e.amount_due) ∧
    (truthyStr e.failure_code = true → (normalize e).failure_code = e.failure_code) ∧
    (truthyStr e.failure_code = false →
      (normalize e).failure_code = e.last_payment_error.bind LastPaymentError.code) ∧
    (truthyStr e.failure_message = true →
      (normalize e).failure_message = e.failure_message) ∧
    (truthyStr e.failure_message = false →
      (normalize e).failure_message = e.last_payment_error.bind LastPaymentError.message) ∧
    (truthyStr (e.payment_method_types.bind List.head?) = true →
      (normalize e).payment_method_type = e.payment_method_types.bind List.head?) ∧
    (truthyStr (e.payment_method_types.bind List.head?) = false →
      truthyStr (e.payment_method.bind PaymentMethodObj.type) = true →
      (normalize e).payment_method_type = e.payment_method.bind PaymentMethodObj.type) ∧
    (truthyStr (e.payment_method_types.bind List.head?) = false →
      truthyStr (e.payment_method.bind PaymentMethodObj.type) = false →
      (normalize e).payment_method_type = e.source.bind SourceObj.type) := by
  refine ⟨?_, ?_, ?_, ?_, ?_, ?_, ?_, ?_, ?_, ?_, ?_⟩
  · intro h; simp [normalize, jsOrStr, h]
  · intro h; simp [normalize, jsOrStr, h]
  · intro h; simp [normalize, jsOrInt, h]
  · intro h; simp [normalize, jsOrInt, h]
  · intro h; simp [normalize, jsOrStr, h]
  · intro h; simp [normalize, jsOrStr, h]
  · intro h; simp [normalize, jsOrStr, h]
  · intro h; simp [normalize, jsOrStr, h]
  · intro h; simp [normalize, jsOrStr, h]
  · intro h1 h2; simp [normalize, jsOrStr, h1, h2]
  · intro h1 h2; simp [normalize, jsOrStr, h1, h2]

/-- Witness for C4 (amended) on a concrete object: a truthy `id` wins and a
zero `amount` falls through to `amount_due`. -/
theorem C4_witness :
    truthyStr ({ eventAmountZero with id := some "pi_7" } : EventObject).id = true ∧
    (normalize { eventAmountZero with id := some "pi_7" }).payment_intent_id = some "pi_7" ∧
    truthyInt ({ eventAmountZero with id := some "pi_7" } : EventObject).amount = false ∧
    (normalize { eventAmountZero with id := some "pi_7" }).amount = some 500 :=
  ⟨by decide,
   (C4_first_truthy_match { eventAmountZero with id := some "pi_7" }).1 (by decide),
   by decide,
   (C4_first_truthy_match { eventAmountZero with id := some "pi_7" }).2.2.2.1 (by decide)⟩

/-- C5: normalization is total for every payload shape — in the model it is
a total function, and for all three recognized event types the handler
always reaches the alert attempt — and every missing optional field
resolves to `none` (omitted) while the customer fields default to the empty
string. -/
theorem C5_normalize_total_defaults (e : EventObject) :
    ((normalize e).customer_name = "" ∧ (normalize e).customer_email = "") ∧
    (e.id = none → e.payment_intent = none → (normalize e).payment_intent_id = none) ∧
    (e.amount = none → e.amount_due = none → (normalize e).amount = none) ∧
    (e.currency = none → (normalize e).currency = none) ∧
    (e.failure_code = none → e.last_payment_error = none →
      (normalize e).failure_code = none) ∧
    (e.failure_message = none → e.last_payment_error = none →
      (normalize e).failure_message = none) ∧
    (e.payment_method_types = none → e.payment_method = none → e.source = none →
      (normalize e).payment_method_type = none) ∧
    (∀ (t : String) lookup gmailSend alertEmail ts tsLoc logs0, isFailureType t = true →
      (handleWebhook (.ok ⟨t, e⟩) lookup gmailSend alertEmail ts tsLoc
          logs0).emailCalls.length = 1) := by
  refine ⟨⟨rfl, rfl⟩, ?_, ?_, ?_, ?_, ?_, ?_, ?_⟩
  · intro h1 h2; simp [normalize, jsOrStr, truthyStr, h1, h2]
  · intro h1 h2; simp [normalize, jsOrInt, truthyInt, h1, h2]
  · intro h; simp [normalize, h]
  · intro h1 h2; simp [normalize, jsOrStr, truthyStr, h1, h2]
  · intro h1 h2; simp [normalize, jsOrStr, truthyStr, h1, h2]
  · intro h1 h2 h3; simp [normalize, jsOrStr, truthyStr, h1, h2, h3]
  · intro t lookup gmailSend alertEmail ts tsLoc logs0 ht
    simp only [handleWebhook, ht, if_true]
    rfl

/-- Witness for C5 at the all-fields-absent payload and a concrete
recognized event. -/
theorem C5_witness :
    (EventObject.empty.amount = none ∧ EventObject.empty.amount_due = none ∧
      (normalize EventObject.empty).amount = none) ∧
    isFailureType "invoice.payment_failed" = true ∧
    (handleWebhook (.ok ⟨"invoice.payment_failed", EventObject.empty⟩)
        (fun _ => .error "x") (fun _ => .ok ()) "a@b.c" "ts" "T" []).emailCalls.length = 1 :=
  ⟨⟨rfl, rfl, (C5_normalize_total_defaults EventObject.empty).2.2.1 rfl rfl⟩,
   by decide,
   (C5_normalize_total_defaults EventObject.empty).2.2.2.2.2.2.2
     "invoice.payment_failed" (fun _ => .error "x") (fun _ => .ok ()) "a@b.c" "ts" "T" []
     (by decide)⟩

/-- The event of C6's example: `payment_intent.payment_failed` data with
`amount = 1999`, `currency = "usd"`, and no customer reference. -/
def eventExample : EventObject :=
  { EventObject.empty with
      id := some "pi_1", amount := some 1999, currency := some "usd",
      created := some 1700000000 }

/-- C6: the rendered body carries an `Amount:` line showing the minor-unit
amount divided by 100 with two decimals followed by the uppercased currency
(defaulting to "USD" when absent), and a `Customer:` line showing the name
or "Unknown" for an empty name; in particular the example record (amount
1999, currency "usd", no customer) renders `Amount: $19.99 USD` and
`Customer: Unknown`. -/
theorem C6_email_body_rendering (p : PaymentData) (tsLoc : String) :
    (("Amount: $" ++ amountStr p.amount ++ " " ++ currencyStr p.currency ++ "\n").toList <:+:
      (emailBody p tsLoc).toList) ∧
    (("Customer: " ++ (if p.customer_name = "" then "Unknown" else p.customer_name) ++
        "\n").toList <:+: (emailBody p tsLoc).toList) ∧
    (∀ n : Nat, amountStr (some (n : Int)) = toString (n / 100) ++ "." ++ pad2 (n % 100)) ∧
    currencyStr none = "USD" ∧ currencyStr (some "usd") = "USD" ∧
    (("Amount: $19.99 USD").toList <:+: (emailBody (normalize eventExample) tsLoc).toList) ∧
    (("Customer: Unknown").toList <:+: (emailBody (normalize eventExample) tsLoc).toList) := by
  have hAmt : ∀ (q : PaymentData) (t : String),
      ("Amount: $" ++ amountStr q.amount ++ " " ++ currencyStr q.currency ++ "\n").toList <:+:
        (emailBody q t).toList := by
    intro q t
    have h : (emailBody q t).toList =
        ("A payment failure has been detected in your Stripe account:\n\n" ++
          "Customer: " ++ (if q.customer_name = "" then "Unknown" else q.customer_name) ++
          "\n" ++ "Customer Email: " ++
          (if q.customer_email = "" then "Not provided" else q.customer_email) ++
          "\n").toList ++
        ("Amount: $" ++ amountStr q.amount ++ " " ++ currencyStr q.currency ++ "\n").toList ++
        ("Payment Method: " ++ jsOrStrD q.payment_method_type "Unknown" ++ "\n" ++
          "Failure Code: " ++ jsOrStrD q.failure_code "Not provided" ++ "\n" ++
          "Failure Message: " ++ jsOrStrD q.failure_message "No details provided" ++ "\n" ++
          "Payment Intent ID: " ++ jsStr q.payment_intent_id ++ "\n" ++
          "Timestamp: " ++ t ++ "\n\n" ++
          "Please review this failed payment in your Stripe dashboard:\n" ++
          "https://dashboard.stripe.com/payments/" ++ jsStr q.payment_intent_id ++ "\n\n" ++
          "---\nAutomated alert from Stripe Payment Monitor").toList := by
      simp [emailBody, String.toList]
    rw [h]
    exact List.infix_append _ _ _
  have hCust : ∀ (q : PaymentData) (t : String),
      ("Customer: " ++ (if q.customer_name = "" then "Unknown" else q.customer_name) ++
        "\n").toList <:+: (emailBody q t).toList := by
    intro q t
    have h : (emailBody q t).toList =
        ("A payment failure has been detected in your Stripe account:\n\n").toList ++
        ("Customer: " ++ (if q.customer_name = "" then "Unknown" else q.customer_name) ++
          "\n").toList ++
        ("Customer Email: " ++
          (if q.customer_email = "" then "Not provided" else q.customer_email) ++ "\n" ++
          "Amount: $" ++ amountStr q.amount ++ " " ++ currencyStr q.currency ++ "\n" ++
          "Payment Method: " ++ jsOrStrD q.payment_method_type "Unknown" ++ "\n" ++
          "Failure Code: " ++ jsOrStrD q.failure_code "Not provided" ++ "\n" ++
          "Failure Message: " ++ jsOrStrD q.failure_message "No details provided" ++ "\n" ++
          "Payment Intent ID: " ++ jsStr q.payment_intent_id ++ "\n" ++
          "Timestamp: " ++ t ++ "\n\n" ++
          "Please review this failed payment in your Stripe dashboard:\n" ++
          "https://dashboard.stripe.com/payments/" ++ jsStr q.payment_intent_id ++ "\n\n" ++
          "---\nAutomated alert from Stripe Payment Monitor").toList := by
      simp [emailBody, String.toList]
    rw [h]
    exact List.infix_append _ _ _
  refine ⟨hAmt p tsLoc, hCust p tsLoc, ?_, rfl, by decide, ?_, ?_⟩
  · intro n
    have hn : ¬((n : Int) < 0) := by omega
    simp [amountStr, fixed2OfCents, hn]
  · have h := hAmt (normalize eventExample) tsLoc
    have he : ("Amount: $" ++ amountStr (normalize eventExample).amount ++ " " ++
        currencyStr (normalize eventExample).currency ++ "\n") =
        "Amount: $19.99 USD\n" := by decide
    rw [he] at h
    exact (List.IsInfix.trans (by decide : ("Amount: $19.99 USD").toList <:+:
      ("Amount: $19.99 USD\n").toList) h)
  · have h := hCust (normalize eventExample) tsLoc
    have he : ("Customer: " ++
        (if (normalize eventExample).customer_name = "" then "Unknown"
          else (normalize eventExample).customer_name) ++ "\n") = "Customer: Unknown\n" := by
      decide
    rw [he] at h
    exact (List.IsInfix.trans (by decide : ("Customer: Unknown").toList <:+:
      ("Customer: Unknown\n").toList) h)

/-- C7: `sendEmailAlert` submits exactly one message per call (no retry),
returns `true` exactly when the mail API call succeeded, never throws (it
is a total function into `SendResult`), and logs every attempt — the
success line on success, the error message at level error on failure. -/
theorem C7_sendEmailAlert_contract (gmailSend : String → Except String Unit)
    (alertEmail : String) (p : PaymentData) (ts tsLoc : String) (logs : List LogEntry) :
    (sendEmailAlert gmailSend alertEmail p ts tsLoc logs).attempts =
      [alertMessage alertEmail p tsLoc] ∧
    ((sendEmailAlert gmailSend alertEmail p ts tsLoc logs).ok = true ↔
      gmailSend (alertMessage alertEmail p tsLoc) = .ok ()) ∧
    (gmailSend (alertMessage alertEmail p tsLoc) = .ok () →
      (sendEmailAlert gmailSend alertEmail p ts tsLoc logs).logs.head? =
        some ⟨ts, "info",
          "Email alert sent successfully for payment " ++ jsStr p.payment_intent_id⟩) ∧
    (∀ e, gmailSend (alertMessage alertEmail p tsLoc) = .error e →
      (sendEmailAlert gmailSend alertEmail p ts tsLoc logs).ok = false ∧
      (sendEmailAlert gmailSend alertEmail p ts tsLoc logs).logs.head? =
        some ⟨ts, "error", "Failed to send email alert: " ++ e⟩) := by
  cases h : gmailSend (alertMessage alertEmail p tsLoc) with
  | ok u =>
      cases u
      refine ⟨by simp [sendEmailAlert, h], by simp [sendEmailAlert, h], ?_, ?_⟩
      · intro _
        simp only [sendEmailAlert, h]
        exact logRecord_head _ _ _ _
      · intro e he
        exact absurd he (by simp)
  | error e0 =>
      refine ⟨by simp [sendEmailAlert, h], by simp [sendEmailAlert, h], ?_, ?_⟩
      · intro hok
        exact absurd hok (by simp)
      · intro e he
        injection he with h2
        subst h2
        refine ⟨by simp [sendEmailAlert, h], ?_⟩
        simp only [sendEmailAlert, h]
        exact logRecord_head _ _ _ _

/-- A concrete payment record used by C7's witness. -/
def paymentW : PaymentData :=
  ⟨some "pi_9", some 1999, some "usd", none, none, some "card", some 1, "", ""⟩

/-- Witness for C7 with an always-succeeding mail oracle. -/
theorem C7_witness :
    (fun _ : String => (Except.ok () : Except String Unit))
        (alertMessage "a@b.c" paymentW "T") = .ok () ∧
    (sendEmailAlert (fun _ => .ok ()) "a@b.c" paymentW "ts" "T" []).logs.head? =
      some ⟨"ts", "info",
        "Email alert sent successfully for payment " ++ jsStr paymentW.payment_intent_id⟩ :=
  ⟨rfl,
   (C7_sendEmailAlert_contract (fun _ => .ok ()) "a@b.c" paymentW "ts" "T" []).2.2.1 rfl⟩

/-- An entry sitting at the front of the log is still present after the
three records that follow the customer-lookup failure in `processFailure`
(the processing line, the send-outcome line inside `sendEmailAlert`, and
the final success/failure line): trimming only drops entries at the far
end. -/
theorem mem_after_three_records (x : LogEntry) (L : List LogEntry) (hx : L[0]? = some x)
    (g : String → Except String Unit) (a : String) (p : PaymentData) (ts tsLoc m1 s1 s2 : String) :
    x ∈ (if (sendEmailAlert g a p ts tsLoc (logRecord ts m1 "info" L)).ok = true
          then logRecord ts s1 "info" (sendEmailAlert g a p ts tsLoc (logRecord ts m1 "info" L)).logs
          else logRecord ts s2 "error"
            (sendEmailAlert g a p ts tsLoc (logRecord ts m1 "info" L)).logs) := by
  obtain ⟨m, lvl, hshape⟩ := sendEmailAlert_logs_shape g a p ts tsLoc (logRecord ts m1 "info" L)
  have h3 : ∀ s lv,
      (logRecord ts s lv (sendEmailAlert g a p ts tsLoc (logRecord ts m1 "info" L)).logs)[3]? =
        some x := by
    intro s lv
    rw [hshape]
    calc (logRecord ts s lv (logRecord ts m lvl (logRecord ts m1 "info" L)))[3]?
        = (logRecord ts m lvl (logRecord ts m1 "info" L))[2]? :=
          logRecord_getElem_succ ts s lv _ 2 (by omega)
      _ = (logRecord ts m1 "info" L)[1]? := logRecord_getElem_succ ts m lvl _ 1 (by omega)
      _ = L[0]? := logRecord_getElem_succ ts m1 "info" L 0 (by omega)
      _ = some x := hx
  split
  · exact List.getElem?_mem (h3 s1 "info")
  · exact List.getElem?_mem (h3 s2 "error")

/-- C9: when a verified failure event carries a (truthy) customer reference
and the customer lookup throws, the handler records the lookup error at
level error, carries on with both customer fields empty — the alert is
still attempted with exactly the normalized record — and still responds 200
`{received: true, type}`. -/
theorem C9_lookup_failure_nonfatal (ev : Event) (cid emsg : String)
    (lookup : String → Except String Customer) (gmailSend : String → Except String Unit)
    (alertEmail ts tsLoc : String) (logs0 : List LogEntry)
    (htype : isFailureType ev.type = true)
    (hcust : ev.obj.customer = some cid) (hne : cid ≠ "")
    (hfail : lookup cid = .error emsg) :
    (handleWebhook (.ok ev) lookup gmailSend alertEmail ts tsLoc logs0).resp =
      ⟨200, .json true ev.type⟩ ∧
    (handleWebhook (.ok ev) lookup gmailSend alertEmail ts tsLoc logs0).emailCalls =
      [normalize ev.obj] ∧
    (normalize ev.obj).customer_name = "" ∧ (normalize ev.obj).customer_email = "" ∧
    (⟨ts, "error", "Failed to retrieve customer info: " ++ emsg⟩ : LogEntry) ∈
      (handleWebhook (.ok ev) lookup gmailSend alertEmail ts tsLoc logs0).logs := by
  refine ⟨by simp [handleWebhook, htype], ?_, rfl, rfl, ?_⟩
  · simp [handleWebhook, htype, processFailure, hcust, hne, hfail]
  · simp only [handleWebhook, htype, if_true, processFailure, hcust, hne, hfail]
    exact mem_after_three_records _ _ (logRecord_getElem_zero _ _ _ _) _ _ _ _ _ _ _ _

/-- The event of C9's witness: a verified `charge.failed` event carrying a
customer reference. -/
def eventCust : Event :=
  ⟨"charge.failed", { EventObject.empty with customer := some "cus_1" }⟩

/-- Witness for C9 with a concretely failing lookup. -/
theorem C9_witness :
    isFailureType eventCust.type = true ∧
    (⟨"ts", "error", "Failed to retrieve customer info: boom"⟩ : LogEntry) ∈
      (handleWebhook (.ok eventCust) (fun _ => .error "boom") (fun _ => .ok ())
        "a@b.c" "ts" "T" []).logs :=
  ⟨by decide,
   (C9_lookup_failure_nonfatal eventCust "cus_1" "boom" (fun _ => .error "boom")
     (fun _ => .ok ()) "a@b.c" "ts" "T" [] (by decide) rfl (by decide) rfl).2.2.2.2⟩

end StripeMonitor
